import Mathlib

/-!
# Verification of the menubar web-apps shell (site / session / pin managers)

Shallow embedding of the TypeScript sources:

* `src/common/types.ts`  — data model (`Site`, `AppSettings`, `USER_AGENTS`,
  `AD_BLOCK_DOMAINS`, `ExportData`).
* `src/main/store.ts`    — site registry, settings store, import/export.
* `src/main/sessionManager.ts` — per-site storage partitions and ad-blocking.
* `src/main/pinManager.ts` — standalone pinned windows with tray icons.
* `src/main/main.ts`     — popover BrowserView lifecycle (`createBrowserView`,
  `destroyCurrentBrowserView`, `switchToSite`, the `site:delete` IPC handler).

The module-level mutable state of all of these singletons is collected into a
single `AppState` record; every operation is a pure function
`AppState → AppState × result`.  External Electron objects are modelled by the
observable attributes the code sets on them: a session is identified by its
partition string, the per-partition request-filter installed by
`webRequest.onBeforeRequest` is a boolean per partition name, partition
storage is a key/value bag per partition name, a `BrowserView` surface is a
numeric handle, and a pinned window is a `PinEntry` record of the attributes
`createPinnedWindow` configures.  Surface creation/destruction additionally
emits `SurfaceEvent`s so that liveness/overlap of popover surfaces over time
can be stated.
-/

namespace Alshahin

/-- `Site` record from `src/common/types.ts` (`interface Site`). -/
structure Site where
  id : String
  name : String
  url : String
  icon : Option String := none
  iconPath : Option String := none
  pinned : Option Bool := none
  alwaysOnTop : Option Bool := none
  partition : Option String := none
  createdAt : Nat
  updatedAt : Nat
deriving DecidableEq

/-- `UserAgentMode` from `src/common/types.ts`. -/
inductive UserAgentMode where
  | desktop
  | mobile
deriving DecidableEq

/-- `AppSettings` from `src/common/types.ts`; optional keys are `Option`
(`none` models an absent key in the stored/parsed JSON object). -/
structure AppSettings where
  activeSiteId : Option String := none
  userAgentMode : UserAgentMode
  windowWidth : Nat
  windowHeight : Nat
  lastExportPath : Option String := none
  popoverAlwaysOnTop : Option Bool := none
  adBlockEnabled : Option Bool := none
deriving DecidableEq

/-- `DEFAULT_SETTINGS` from `src/main/store.ts`. -/
def DEFAULT_SETTINGS : AppSettings :=
  { userAgentMode := UserAgentMode.desktop
    windowWidth := 800
    windowHeight := 600 }

/-- `USER_AGENTS` from `src/common/types.ts`. -/
def USER_AGENTS : UserAgentMode → String
  | UserAgentMode.desktop =>
      "Mozilla/5.0 (Macintosh; Intel Mac OS X 10_15_7) AppleWebKit/537.36 (KHTML, like Gecko) Chrome/120.0.0.0 Safari/537.36"
  | UserAgentMode.mobile =>
      "Mozilla/5.0 (iPhone; CPU iPhone OS 17_0 like Mac OS X) AppleWebKit/605.1.15 (KHTML, like Gecko) Version/17.0 Mobile/15E148 Safari/604.1"

/-- `AD_BLOCK_DOMAINS` from `src/common/types.ts`. -/
def AD_BLOCK_DOMAINS : List String :=
  ["doubleclick.net", "googlesyndication.com", "googleadservices.com",
   "google-analytics.com", "googletagmanager.com", "googletagservices.com",
   "facebook.com/tr", "connect.facebook.net", "platform.twitter.com",
   "static.ads-twitter.com",
   "adnxs.com", "advertising.com", "adsystem.com", "amazon-adsystem.com",
   "casalemedia.com", "criteo.com", "outbrain.com", "taboola.com",
   "quantserve.com", "scorecardresearch.com", "moatads.com", "pubmatic.com",
   "rubiconproject.com",
   "hotjar.com", "crazyegg.com", "mouseflow.com", "mixpanel.com",
   "segment.com", "newrelic.com"]

/-- `ExportData` from `src/common/types.ts`. -/
structure ExportData where
  version : String
  exportedAt : Nat
  sites : List Site
  settings : AppSettings
deriving DecidableEq

/-! ## String helpers: JavaScript `toLowerCase` and `includes` -/

/-- JavaScript `String.prototype.toLowerCase` (ASCII case folding as used on
the ASCII domain list and URLs), character by character. -/
def lowerStr (s : String) : String := String.mk (s.data.map Char.toLower)

/-- Is `needle` an initial segment of `hay`? -/
def startsWithList : List Char → List Char → Bool
  | [], _ => true
  | _ :: _, [] => false
  | a :: as, b :: bs => a == b && startsWithList as bs

/-- Does `hay` contain `needle` as a contiguous run? -/
def includesList (needle : List Char) : List Char → Bool
  | [] => needle.isEmpty
  | c :: rest => startsWithList needle (c :: rest) || includesList needle rest

/-- JavaScript `s.includes(sub)`: substring containment. -/
def strIncludes (s sub : String) : Bool := includesList sub.data s.data

/-- The ad test of `SessionManager.setupAdBlockForSession`:
`url.toLowerCase()` contains some `domain.toLowerCase()` of
`AD_BLOCK_DOMAINS`. -/
def isAdUrl (url : String) : Bool :=
  AD_BLOCK_DOMAINS.any (fun domain => strIncludes (lowerStr url) (lowerStr domain))

/-! ## Association-list maps (JavaScript `Map` with insertion order) -/

/-- `Map.get`: value of the (unique) entry for key `k`. -/
def lookupKey {α : Type} (k : String) : List (String × α) → Option α
  | [] => none
  | (k2, v) :: rest => if k2 = k then some v else lookupKey k rest

/-- `Map.delete`: drop the entry for key `k`. -/
def eraseKey {α : Type} (k : String) (l : List (String × α)) : List (String × α) :=
  l.filter (fun kv => kv.1 ≠ k)

/-- `Map.set` on a key that may be present: replace in place, else append. -/
def setKey {α : Type} (k : String) (v : α) : List (String × α) → List (String × α)
  | [] => [(k, v)]
  | (k2, w) :: rest => if k2 = k then (k, v) :: rest else (k2, w) :: setKey k v rest

/-! ## The global state -/

/-- A tray icon (`new Tray(icon)` + `setToolTip`) as created by
`PinManager.createTrayForPinnedWindow`. -/
structure Tray where
  tooltip : String
deriving DecidableEq

/-- One entry of `PinManager.pinnedWindows` (`PinnedWindowState`), carrying
the observable attributes `createPinnedWindow` configures on the standalone
window and its BrowserView. -/
structure PinEntry where
  siteId : String
  windowHandle : Nat
  viewHandle : Nat
  title : String
  alwaysOnTop : Bool
  url : String
  userAgent : String
  focused : Bool
deriving DecidableEq

/-- A surface lifecycle event emitted by the popover lifecycle functions:
`created v s` is `new BrowserView` + `addBrowserView` for site `s`,
`destroyed v` is `removeBrowserView` + `webContents.destroy()`. -/
inductive SurfaceEvent where
  | created (surfaceId : Nat) (siteId : String)
  | destroyed (surfaceId : Nat)
deriving DecidableEq

/-- All module-level mutable state of `main.ts`, `store.ts`,
`sessionManager.ts` and `pinManager.ts`, plus the observable state of the
Electron session world (which partitions have a request filter installed,
and each partition's stored data). -/
structure AppState where
  /-- `main.ts`: is the popover `window` non-null? -/
  window : Bool
  /-- `main.ts`: `currentBrowserView` (surface handle). -/
  currentBrowserView : Option Nat := none
  /-- `main.ts`: `currentSiteId`. -/
  currentSiteId : Option String := none
  /-- `store.ts`: persisted `sites` array. -/
  sites : List Site
  /-- `store.ts`: persisted `settings`. -/
  settings : AppSettings
  /-- `sessionManager.ts`: `adBlockEnabled` flag. -/
  adBlockEnabled : Bool := false
  /-- `sessionManager.ts`: `activeSessions` set (insertion order). -/
  activeSessions : List String := []
  /-- `pinManager.ts`: `pinnedWindows` map. -/
  pinnedWindows : List (String × PinEntry) := []
  /-- `pinManager.ts`: `pinnedTrays` map. -/
  pinnedTrays : List (String × Tray) := []
  /-- Electron session world: which partitions currently have the
  `onBeforeRequest` ad filter installed. -/
  sessionFilter : String → Bool
  /-- Electron session world: each partition's stored data
  (cookies/cache/storage as one key-value bag). -/
  partitionData : String → List (String × String)
  /-- Fresh-handle counter for surfaces. -/
  nextSurfaceId : Nat := 0
  /-- Fresh-handle counter for windows/views of pinned windows. -/
  nextWindowHandle : Nat := 0

/-! ## SessionManager (`src/main/sessionManager.ts`) -/

/-- The partition string `persist:site-${siteId}` used throughout
`SessionManager`. -/
def partitionName (siteId : String) : String := "persist:site-" ++ siteId

/-- `SessionManager.setupAdBlockForSession`: removes any existing listener,
then installs the ad-cancelling `onBeforeRequest` filter on the session. -/
def setupAdBlockForSession (p : String) (st : AppState) : AppState :=
  { st with sessionFilter := fun q => if q = p then true else st.sessionFilter q }

/-- `SessionManager.removeAdBlockFromSession`: clears the `onBeforeRequest`
listener of the session. -/
def removeAdBlockFromSession (p : String) (st : AppState) : AppState :=
  { st with sessionFilter := fun q => if q = p then false else st.sessionFilter q }

/-- `SessionManager.getSessionForSite`: computes the partition name, tracks it
in `activeSessions`, installs the ad filter if ad-block is on, and returns
the session handle (identified by its partition name). -/
def getSessionForSite (siteId : String) (st : AppState) : AppState × String :=
  let p := partitionName siteId
  let st1 := { st with
    activeSessions :=
      if p ∈ st.activeSessions then st.activeSessions else st.activeSessions ++ [p] }
  let st2 := if st1.adBlockEnabled then setupAdBlockForSession p st1 else st1
  (st2, p)

/-- `SessionManager.setAdBlockEnabled`: sets the flag, then installs/removes
the filter on every tracked partition. -/
def setAdBlockEnabled (enabled : Bool) (st : AppState) : AppState :=
  let st1 := { st with adBlockEnabled := enabled }
  st1.activeSessions.foldl
    (fun acc p =>
      if enabled then setupAdBlockForSession p acc else removeAdBlockFromSession p acc)
    st1

/-- Outcome of the `onBeforeRequest` callback for one outbound request. -/
inductive RequestDecision where
  | allowed
  | cancelled
deriving DecidableEq

/-- The fate of a request with URL `url` issued in partition `p`: if the ad
filter is installed there, requests matching `isAdUrl` are cancelled
(`callback({cancel:true})`), everything else is allowed. -/
def onBeforeRequest (st : AppState) (p : String) (url : String) : RequestDecision :=
  if st.sessionFilter p then
    if isAdUrl url then RequestDecision.cancelled else RequestDecision.allowed
  else RequestDecision.allowed

/-- `SessionManager.clearSiteData`: empties the partition's cookies, cache and
storage (modelled as one bag). -/
def clearSiteData (siteId : String) (st : AppState) : AppState :=
  let p := partitionName siteId
  { st with partitionData := fun q => if q = p then [] else st.partitionData q }

/-- A web page in the partition of `siteId` storing a value (cookie / local
storage entry) under key `k`. -/
def writeSiteData (siteId k v : String) (st : AppState) : AppState :=
  let p := partitionName siteId
  { st with partitionData := fun q =>
      if q = p then (k, v) :: st.partitionData q else st.partitionData q }

/-- A web page in the partition of `siteId` reading the value stored under
key `k`. -/
def readSiteData (siteId k : String) (st : AppState) : Option String :=
  lookupKey k (st.partitionData (partitionName siteId))

/-! ## Store (`src/main/store.ts`) -/

/-- `siteStore.getById`: first site whose id matches. -/
def getById (sites : List Site) (id : String) : Option Site :=
  sites.find? (fun s => s.id == id)

/-- `siteStore.delete`: filter the site out; `false` (and no write) when the
id was not present. -/
def siteStoreDelete (id : String) (st : AppState) : AppState × Bool :=
  let filtered := st.sites.filter (fun s => s.id ≠ id)
  if filtered.length = st.sites.length then (st, false)
  else ({ st with sites := filtered }, true)

/-- The JavaScript object spread `{ ...cur, ...imp }` on two settings
objects: every key present in `imp` overwrites, absent optional keys
(`none`, i.e. `undefined` in parsed JSON) leave the current value. -/
def mergeSettings (cur imp : AppSettings) : AppSettings where
  activeSiteId := imp.activeSiteId <|> cur.activeSiteId
  userAgentMode := imp.userAgentMode
  windowWidth := imp.windowWidth
  windowHeight := imp.windowHeight
  lastExportPath := imp.lastExportPath <|> cur.lastExportPath
  popoverAlwaysOnTop := imp.popoverAlwaysOnTop <|> cur.popoverAlwaysOnTop
  adBlockEnabled := imp.adBlockEnabled <|> cur.adBlockEnabled

/-- `importExport.exportToJson`: builds the `ExportData` document from the
store (JSON serialisation of the value is modelled as the identity). -/
def exportToJson (st : AppState) (now : Nat) : ExportData :=
  { version := "1.0.0"
    exportedAt := now
    sites := st.sites
    settings := st.settings }

/-- `importExport.importFromJson` (the parsed document `data` in hand):
replace mode overwrites `sites` and `settings`; merge mode appends the
imported sites whose URL is not already present (the `existingUrls` set) and
spread-merges the settings. -/
def importFromJson (data : ExportData) (merge : Bool) (st : AppState) : AppState :=
  if merge = false then
    { st with sites := data.sites, settings := data.settings }
  else
    let existingSites := st.sites
    let existingUrls := existingSites.map (fun s => s.url)
    let newSites := data.sites.filter (fun s => !(existingUrls.contains s.url))
    { st with
      sites := existingSites ++ newSites
      settings := mergeSettings st.settings data.settings }

/-! ## PinManager (`src/main/pinManager.ts`) -/

/-- `PinManager.isPinned`. -/
def isPinned (siteId : String) (st : AppState) : Bool :=
  (lookupKey siteId st.pinnedWindows).isSome

/-- `PinManager.createPinnedWindow`.  If a window already exists for the site
id, focus it and return its handle; otherwise create the standalone window
(always-on-top from `site.alwaysOnTop || false`), a BrowserView on the site's
isolated session, set the user agent for `userAgentMode`, load `site.url`,
record the `PinnedWindowState`, and create a tray icon when the site has a
custom icon. -/
def createPinnedWindow (site : Site) (uaMode : UserAgentMode) (st : AppState) :
    AppState × Nat :=
  match lookupKey site.id st.pinnedWindows with
  | some existing =>
      let focusedEntry := { existing with focused := true }
      ({ st with pinnedWindows := setKey site.id focusedEntry st.pinnedWindows },
       existing.windowHandle)
  | none =>
      let wh := st.nextWindowHandle
      let vh := st.nextWindowHandle + 1
      let st1 := { st with nextWindowHandle := st.nextWindowHandle + 2 }
      let st2 := (getSessionForSite site.id st1).1
      let entry : PinEntry :=
        { siteId := site.id
          windowHandle := wh
          viewHandle := vh
          title := site.name
          alwaysOnTop := site.alwaysOnTop.getD false
          url := site.url
          userAgent := USER_AGENTS uaMode
          focused := true }
      let st3 := { st2 with pinnedWindows := st2.pinnedWindows ++ [(site.id, entry)] }
      let st4 :=
        if site.icon.isSome || site.iconPath.isSome then
          { st3 with pinnedTrays := st3.pinnedTrays ++ [(site.id, { tooltip := site.name })] }
        else st3
      (st4, wh)

/-- `PinManager.closePinnedWindow`: if an entry exists, detach/destroy its
view, close the window and delete the entry; then destroy and delete the
tray icon if one exists.  No-op on an unknown id. -/
def closePinnedWindow (siteId : String) (st : AppState) : AppState :=
  let st1 :=
    match lookupKey siteId st.pinnedWindows with
    | some _ => { st with pinnedWindows := eraseKey siteId st.pinnedWindows }
    | none => st
  match lookupKey siteId st1.pinnedTrays with
  | some _ => { st1 with pinnedTrays := eraseKey siteId st1.pinnedTrays }
  | none => st1

/-! ## Popover surface lifecycle (`src/main/main.ts`) -/

/-- `main.ts` `createBrowserView(site)`: takes the isolated session for the
site (tracking it), creates a fresh BrowserView with the current user agent,
positions it below the UI chrome and starts loading `site.url`.  Emits the
fresh surface handle. -/
def createBrowserView (site : Site) (st : AppState) : AppState × Nat :=
  let st1 := (getSessionForSite site.id st).1
  let v := st1.nextSurfaceId
  ({ st1 with nextSurfaceId := v + 1 }, v)

/-- `main.ts` `destroyCurrentBrowserView()`: when a current view and the
window exist, remove the view, destroy its web contents and clear both the
view and the active-site references. -/
def destroyCurrentBrowserView (st : AppState) : AppState × List SurfaceEvent :=
  match st.currentBrowserView, st.window with
  | some v, true =>
      ({ st with currentBrowserView := none, currentSiteId := none },
       [SurfaceEvent.destroyed v])
  | _, _ => (st, [])

/-- `main.ts` `switchToSite(siteId)`: no-op without a window; look the site up
and no-op (log only) when not found; otherwise destroy the current view,
create and attach the new one, record the active site id and persist it in
settings.  The returned event list interleaves the destruction and creation
in program order. -/
def switchToSite (siteId : String) (st : AppState) : AppState × List SurfaceEvent :=
  if st.window = false then (st, [])
  else
    match getById st.sites siteId with
    | none => (st, [])
    | some site =>
        let pr := destroyCurrentBrowserView st
        let cr := createBrowserView site pr.1
        let st2 := cr.1
        let st3 := { st2 with
          currentBrowserView := some cr.2
          currentSiteId := some siteId
          settings := { st2.settings with activeSiteId := some siteId } }
        (st3, pr.2 ++ [SurfaceEvent.created cr.2 siteId])

/-- N sequential `switchToSite` calls, accumulating the surface events. -/
def switchSeq (ids : List String) (st : AppState) : AppState × List SurfaceEvent :=
  match ids with
  | [] => (st, [])
  | i :: rest =>
      let pr := switchToSite i st
      let rr := switchSeq rest pr.1
      (rr.1, pr.2 ++ rr.2)

/-- The `ipcMain.handle('site:delete')` handler of `main.ts`: close the
pinned window if pinned, clear the partition data, delete from the store,
and if the deleted site was active destroy the popover view and switch to
the first remaining site when one exists. -/
def handleSiteDelete (id : String) (st : AppState) :
    AppState × Bool × List SurfaceEvent :=
  let st1 := if isPinned id st then closePinnedWindow id st else st
  let st2 := clearSiteData id st1
  let dr := siteStoreDelete id st2
  let st3 := dr.1
  let success := dr.2
  if success = true ∧ st3.currentSiteId = some id then
    let pr := destroyCurrentBrowserView st3
    let st4 := pr.1
    match st4.sites with
    | [] => (st4, true, pr.2)
    | s0 :: _ =>
        let sw := switchToSite s0.id st4
        (sw.1, true, pr.2 ++ sw.2)
  else (st3, success, [])

/-! ## Surface liveness derived from event traces -/

/-- Surfaces live after processing the events, starting from live set `l`. -/
def liveFrom (l : List Nat) (evts : List SurfaceEvent) : List Nat :=
  evts.foldl
    (fun acc e =>
      match e with
      | SurfaceEvent.created v _ => acc ++ [v]
      | SurfaceEvent.destroyed v => acc.filter (fun w => w ≠ v))
    l

/-- Surfaces live after an event trace, starting from none. -/
def liveSurfaces (evts : List SurfaceEvent) : List Nat := liveFrom [] evts

/-- The live surfaces of a popover state (`currentBrowserView` as a list). -/
def liveOf (st : AppState) : List Nat :=
  match st.currentBrowserView with
  | some v => [v]
  | none => []

/-! ## Session operation traces (for ad-block retroactivity) -/

/-- One call into the `SessionManager` singleton. -/
inductive SessionOp where
  | getSession (siteId : String)
  | setAdBlock (enabled : Bool)
deriving DecidableEq

/-- Run a sequence of `SessionManager` calls. -/
def runSessionOps (ops : List SessionOp) (st : AppState) : AppState :=
  ops.foldl
    (fun acc op =>
      match op with
      | SessionOp.getSession id => (getSessionForSite id acc).1
      | SessionOp.setAdBlock e => setAdBlockEnabled e acc)
    st

/-- A concrete fresh application state (popover window created, empty
registry, default settings). -/
def initialAppState : AppState :=
  { window := true
    sites := []
    settings := DEFAULT_SETTINGS
    sessionFilter := fun _ => false
    partitionData := fun _ => [] }

/-! ## Helper lemmas -/

theorem partitionName_inj {a b : String} (h : partitionName a = partitionName b) :
    a = b := by
  have h2 := congrArg String.data h
  rw [partitionName, partitionName, String.data_append, String.data_append] at h2
  exact String.ext (List.append_cancel_left h2)

theorem lookupKey_eraseKey_self {α : Type} (k : String) (l : List (String × α)) :
    lookupKey k (eraseKey k l) = none := by
  induction l with
  | nil => rfl
  | cons kv rest ih =>
      by_cases hk : kv.1 = k
      · simp [eraseKey, List.filter, hk] at ih ⊢
        simpa [eraseKey] using ih
      · simp only [eraseKey, List.filter] at ih ⊢
        simp only [hk, decide_not, ne_eq, decide_eq_true_eq]
        cases kv with
        | mk k2 v =>
            simp only at hk
            simp [hk, lookupKey, eraseKey, ih]
            simpa [eraseKey] using ih

theorem lookupKey_eraseKey_ne {α : Type} {k k' : String} (l : List (String × α))
    (h : k' ≠ k) : lookupKey k' (eraseKey k l) = lookupKey k' l := by
  induction l with
  | nil => rfl
  | cons kv rest ih =>
      cases kv with
      | mk k2 v =>
          by_cases h2 : k2 = k
          · subst h2
            simp [eraseKey, List.filter, lookupKey, Ne.symm h] at ih ⊢
            simpa [eraseKey] using ih
          · by_cases h3 : k2 = k'
            · subst h3
              simp [eraseKey, List.filter, h2, lookupKey]
            · simp [eraseKey, List.filter, h2, lookupKey, h3] at ih ⊢
              simpa [eraseKey] using ih

theorem lookupKey_setKey_self {α : Type} (k : String) (v : α) (l : List (String × α)) :
    lookupKey k (setKey k v l) = some v := by
  induction l with
  | nil => simp [setKey, lookupKey]
  | cons kv rest ih =>
      cases kv with
      | mk k2 w =>
          by_cases h2 : k2 = k
          · simp [setKey, h2, lookupKey]
          · simp [setKey, h2, lookupKey, ih]

theorem lookupKey_setKey_ne {α : Type} {k k' : String} (v : α) (l : List (String × α))
    (h : k' ≠ k) : lookupKey k' (setKey k v l) = lookupKey k' l := by
  induction l with
  | nil =>
      simp only [setKey, lookupKey]
      rw [if_neg (fun hh => h hh.symm)]
  | cons kv rest ih =>
      cases kv with
      | mk k2 w =>
          by_cases h2 : k2 = k
          · subst h2
            simp only [setKey, if_pos rfl, lookupKey]
            rw [if_neg (fun hh => h hh.symm), if_neg (fun hh => h hh.symm)]
          · simp [setKey, h2, lookupKey, ih]

theorem setKey_map_fst {α : Type} (k : String) (v : α) (l : List (String × α))
    (h : lookupKey k l ≠ none) :
    (setKey k v l).map Prod.fst = l.map Prod.fst := by
  induction l with
  | nil => simp [lookupKey] at h
  | cons kv rest ih =>
      cases kv with
      | mk k2 w =>
          by_cases h2 : k2 = k
          · simp [setKey, h2]
          · simp only [lookupKey, h2, if_false] at h
            simp [setKey, h2, ih h]

theorem lookupKey_eq_none_iff {α : Type} (k : String) (l : List (String × α)) :
    lookupKey k l = none ↔ k ∉ l.map Prod.fst := by
  induction l with
  | nil => simp [lookupKey]
  | cons kv rest ih =>
      cases kv with
      | mk k2 w =>
          by_cases h2 : k2 = k
          · simp [lookupKey, h2]
          · simp only [lookupKey, h2, if_false, List.map, List.mem_cons]
            rw [ih]
            constructor
            · intro hnotin hor
              rcases hor with h4 | h4
              · exact h2 h4.symm
              · exact hnotin h4
            · intro hcon h4
              exact hcon (Or.inr h4)

theorem lookupKey_append_self {α : Type} (k : String) (v : α) (l : List (String × α))
    (h : lookupKey k l = none) : lookupKey k (l ++ [(k, v)]) = some v := by
  induction l with
  | nil => simp [lookupKey]
  | cons kv rest ih =>
      cases kv with
      | mk k2 w =>
          by_cases h2 : k2 = k
          · simp [lookupKey, h2] at h
          · simp only [lookupKey, h2, if_false] at h
            simp [lookupKey, h2, ih h]

/-! ## C4: partition naming -/

/-- C4 counterexample: the partition handed out by `getSessionForSite` is not
named bare `site-<id>`: for id `"a"` the partition string is
`persist:site-a`, not `site-a`. -/
theorem partition_name_not_bare : (getSessionForSite ("a") initialAppState).2 ≠ "site-a" := by
  decide

/-- C4 (amended): the storage partition used for a site is derived
deterministically from its id alone and is named exactly
`persist:site-<id>` (the `persist:` prefix marking the partition durable):
`getSessionForSite id` always returns the partition string
`persist:` + `site-<id>`, independent of any other state. -/
theorem getSessionForSite_partition_name (id : String) (st st' : AppState) :
    (getSessionForSite id st).2 = "persist:" ++ ("site-" ++ id) ∧
    (getSessionForSite id st).2 = (getSessionForSite id st').2 := by
  constructor
  · show partitionName id = _
    rw [partitionName, show ("persist:site-" : String) = "persist:" ++ "site-" from by decide]
    exact String.append_assoc _ _ _
  · rfl

/-! ## C5: partition determinism and disjointness -/

/-- C5: `getSessionForSite` is idempotent and injective over site ids:
calling it twice with the same id yields handles bound to the same
underlying partition; calling it for two different ids yields handles to
distinct partitions, and data written under id `a` is never visible when
read under a different id `b`. -/
theorem getSessionForSite_deterministic_disjoint
    (a b k k' v : String) (st : AppState) (hab : a ≠ b) :
    (getSessionForSite a ((getSessionForSite a st).1)).2 = (getSessionForSite a st).2 ∧
    (getSessionForSite a st).2 ≠ (getSessionForSite b st).2 ∧
    readSiteData b k' (writeSiteData a k v st) = readSiteData b k' st := by
  refine ⟨rfl, ?_, ?_⟩
  · show partitionName a ≠ partitionName b
    intro h
    exact hab (partitionName_inj h)
  · show lookupKey k' (if partitionName b = partitionName a then _ else _) = _
    rw [if_neg (fun h => hab (partitionName_inj h).symm)]
    rfl

/-- C5 witness at concrete ids `a ≠ b`. -/
theorem getSessionForSite_deterministic_disjoint_witness :
    ("a" : String) ≠ "b" ∧
    ((getSessionForSite ("a") ((getSessionForSite ("a") initialAppState).1)).2 =
        (getSessionForSite ("a") initialAppState).2 ∧
      (getSessionForSite ("a") initialAppState).2 ≠ (getSessionForSite ("b") initialAppState).2 ∧
      readSiteData ("b") ("k") (writeSiteData ("a") ("k") ("v") initialAppState) =
        readSiteData ("b") ("k") initialAppState) :=
  ⟨by decide,
   getSessionForSite_deterministic_disjoint ("a") ("b") ("k") ("k") ("v") initialAppState
     (by decide)⟩

/-! ## C7: export / replace-import round trip -/

/-- C7: exporting and immediately re-importing in replace mode reproduces the
`sites` array and `settings` object exactly; in particular every site's
`createdAt`/`updatedAt` timestamps are preserved verbatim, not
regenerated. -/
theorem export_import_round_trip (st : AppState) (now : Nat) :
    (importFromJson (exportToJson st now) false st).sites = st.sites ∧
    (importFromJson (exportToJson st now) false st).settings = st.settings ∧
    (importFromJson (exportToJson st now) false st).sites.map Site.createdAt =
      st.sites.map Site.createdAt ∧
    (importFromJson (exportToJson st now) false st).sites.map Site.updatedAt =
      st.sites.map Site.updatedAt := by
  refine ⟨rfl, rfl, rfl, rfl⟩

/-! ## C9: switching to an unknown site is a silent no-op -/

/-- C9: for a site id not present in the registry, `switchToSite` is a total
no-op: it returns normally (no error crosses the boundary), the state —
including the currently active surface, the active-site reference and the
persisted `activeSiteId` setting — is unchanged, and no surface is destroyed
or created. -/
theorem switchToSite_unknown_noop (id : String) (st : AppState)
    (h : getById st.sites id = none) :
    switchToSite id st = (st, []) := by
  by_cases hw : st.window = false
  · simp [switchToSite, hw]
  · simp [switchToSite, hw, h]

/-- C9 witness: switching to an id absent from a concrete registry leaves the
state untouched and emits no surface events. -/
theorem switchToSite_unknown_noop_witness :
    getById initialAppState.sites ("ghost") = none ∧
    switchToSite ("ghost") initialAppState = (initialAppState, []) :=
  ⟨by decide, switchToSite_unknown_noop ("ghost") initialAppState (by decide)⟩

/-! ## C6: merge import is duplicate-safe -/

/-- C6: merge-mode import keeps the existing sites in place, never appends an
imported site whose URL is already present verbatim (the count of registry
entries with such a URL is unchanged), appends every imported site with a
new URL, and shallow-merges settings with the imported keys winning (an
absent imported optional key keeps the existing value). -/
theorem merge_import_duplicate_safe (data : ExportData) (st : AppState) :
    (importFromJson data true st).sites.take st.sites.length = st.sites ∧
    (∀ s ∈ data.sites, s.url ∈ st.sites.map Site.url →
      (importFromJson data true st).sites.countP (fun t => t.url == s.url) =
        st.sites.countP (fun t => t.url == s.url)) ∧
    (∀ s ∈ data.sites, s.url ∉ st.sites.map Site.url →
      s ∈ (importFromJson data true st).sites) ∧
    (importFromJson data true st).settings.userAgentMode = data.settings.userAgentMode ∧
    (importFromJson data true st).settings.windowWidth = data.settings.windowWidth ∧
    (importFromJson data true st).settings.windowHeight = data.settings.windowHeight ∧
    (∀ x, data.settings.activeSiteId = some x →
      (importFromJson data true st).settings.activeSiteId = some x) ∧
    (data.settings.activeSiteId = none →
      (importFromJson data true st).settings.activeSiteId = st.settings.activeSiteId) := by
  have hsites : (importFromJson data true st).sites =
      st.sites ++ data.sites.filter
        (fun s => !((st.sites.map (fun t => t.url)).contains s.url)) := by
    simp [importFromJson]
  refine ⟨?_, ?_, ?_, ?_, ?_, ?_, ?_, ?_⟩
  · rw [hsites]
    exact List.take_left st.sites _
  · intro s _ hmem
    rw [hsites, List.countP_append]
    have hzero : (data.sites.filter
        (fun t => !((st.sites.map (fun u => u.url)).contains t.url))).countP
          (fun t => t.url == s.url) = 0 := by
      apply List.countP_eq_zero.mpr
      intro t ht
      have h2 := (List.mem_filter.mp ht).2
      intro hbeq
      have hturl : t.url = s.url := by
        simpa using hbeq
      rw [Bool.not_eq_true', ← Bool.not_eq_true] at h2
      apply h2
      apply List.elem_iff.mpr
      rw [hturl]
      simpa using hmem
    omega
  · intro s hs hnot
    rw [hsites]
    apply List.mem_append.mpr
    right
    apply List.mem_filter.mpr
    refine ⟨hs, ?_⟩
    rw [Bool.not_eq_eq_eq_not]
    simp only [Bool.not_true]
    rw [← Bool.not_eq_true]
    intro hcontains
    apply hnot
    have := List.elem_iff.mp hcontains
    simpa using this
  · simp [importFromJson, mergeSettings]
  · simp [importFromJson, mergeSettings]
  · simp [importFromJson, mergeSettings]
  · intro x hx
    simp [importFromJson, mergeSettings, hx]
  · intro hx
    simp [importFromJson, mergeSettings, hx]

/-! ## Frame lemmas for `getSessionForSite` -/

theorem getSessionForSite_pinnedWindows (id : String) (st : AppState) :
    ((getSessionForSite id st).1).pinnedWindows = st.pinnedWindows := by
  unfold getSessionForSite
  by_cases h : st.adBlockEnabled <;> simp [h, setupAdBlockForSession]

theorem getSessionForSite_pinnedTrays (id : String) (st : AppState) :
    ((getSessionForSite id st).1).pinnedTrays = st.pinnedTrays := by
  unfold getSessionForSite
  by_cases h : st.adBlockEnabled <;> simp [h, setupAdBlockForSession]

theorem getSessionForSite_sites (id : String) (st : AppState) :
    ((getSessionForSite id st).1).sites = st.sites := by
  unfold getSessionForSite
  by_cases h : st.adBlockEnabled <;> simp [h, setupAdBlockForSession]

theorem getSessionForSite_settings (id : String) (st : AppState) :
    ((getSessionForSite id st).1).settings = st.settings := by
  unfold getSessionForSite
  by_cases h : st.adBlockEnabled <;> simp [h, setupAdBlockForSession]

theorem getSessionForSite_window (id : String) (st : AppState) :
    ((getSessionForSite id st).1).window = st.window := by
  unfold getSessionForSite
  by_cases h : st.adBlockEnabled <;> simp [h, setupAdBlockForSession]

theorem getSessionForSite_currentBrowserView (id : String) (st : AppState) :
    ((getSessionForSite id st).1).currentBrowserView = st.currentBrowserView := by
  unfold getSessionForSite
  by_cases h : st.adBlockEnabled <;> simp [h, setupAdBlockForSession]

theorem getSessionForSite_currentSiteId (id : String) (st : AppState) :
    ((getSessionForSite id st).1).currentSiteId = st.currentSiteId := by
  unfold getSessionForSite
  by_cases h : st.adBlockEnabled <;> simp [h, setupAdBlockForSession]

theorem getSessionForSite_nextSurfaceId (id : String) (st : AppState) :
    ((getSessionForSite id st).1).nextSurfaceId = st.nextSurfaceId := by
  unfold getSessionForSite
  by_cases h : st.adBlockEnabled <;> simp [h, setupAdBlockForSession]

theorem getSessionForSite_nextWindowHandle (id : String) (st : AppState) :
    ((getSessionForSite id st).1).nextWindowHandle = st.nextWindowHandle := by
  unfold getSessionForSite
  by_cases h : st.adBlockEnabled <;> simp [h, setupAdBlockForSession]

theorem getSessionForSite_partitionData (id : String) (st : AppState) :
    ((getSessionForSite id st).1).partitionData = st.partitionData := by
  unfold getSessionForSite
  by_cases h : st.adBlockEnabled <;> simp [h, setupAdBlockForSession]

/-! ## C2: pinned windows are unique per site id -/

/-- C2: starting from any pin-manager state whose window map has one entry
per site id, `createPinnedWindow` never produces two simultaneously-open
pinned windows for one id: the key set stays duplicate-free and the id has
at most one entry afterwards; moreover, a call while a window for the id
already exists returns the existing window's handle and leaves the pinned
window/surface count and the tray map unchanged. -/
theorem createPinnedWindow_unique (site : Site) (ua : UserAgentMode) (st : AppState)
    (hkeys : (st.pinnedWindows.map Prod.fst).Nodup) :
    ((createPinnedWindow site ua st).1.pinnedWindows.map Prod.fst).Nodup ∧
    ((createPinnedWindow site ua st).1.pinnedWindows.map Prod.fst).count site.id ≤ 1 ∧
    (∀ e, lookupKey site.id st.pinnedWindows = some e →
      (createPinnedWindow site ua st).2 = e.windowHandle ∧
      (createPinnedWindow site ua st).1.pinnedWindows.length = st.pinnedWindows.length ∧
      (createPinnedWindow site ua st).1.pinnedTrays = st.pinnedTrays) := by
  cases h : lookupKey site.id st.pinnedWindows with
  | some e0 =>
      have hfst : ((createPinnedWindow site ua st).1.pinnedWindows.map Prod.fst) =
          st.pinnedWindows.map Prod.fst := by
        simp only [createPinnedWindow, h]
        exact setKey_map_fst site.id _ st.pinnedWindows (by rw [h]; exact fun hc => by cases hc)
      refine ⟨?_, ?_, ?_⟩
      · rw [hfst]; exact hkeys
      · rw [hfst]
        exact List.nodup_iff_count_le_one.mp hkeys site.id
      · intro e he
        cases he
        refine ⟨?_, ?_, ?_⟩
        · simp [createPinnedWindow, h]
        · have := congrArg List.length hfst
          simpa using this
        · simp [createPinnedWindow, h]
  | none =>
      have hnotin : site.id ∉ st.pinnedWindows.map Prod.fst :=
        (lookupKey_eq_none_iff site.id st.pinnedWindows).mp h
      have hfst : ((createPinnedWindow site ua st).1.pinnedWindows.map Prod.fst) =
          st.pinnedWindows.map Prod.fst ++ [site.id] := by
        simp only [createPinnedWindow, h]
        by_cases hicon : site.icon.isSome || site.iconPath.isSome <;>
          simp [hicon, getSessionForSite_pinnedWindows]
      have hnodup : ((createPinnedWindow site ua st).1.pinnedWindows.map Prod.fst).Nodup := by
        rw [hfst]
        simp only [List.nodup_append]
        exact ⟨hkeys, List.nodup_singleton site.id,
          by simpa [List.disjoint_singleton] using hnotin⟩
      refine ⟨hnodup, List.nodup_iff_count_le_one.mp hnodup site.id, ?_⟩
      intro e he
      exact Option.noConfusion he

/-- C2 witness: a registry state with a pinned window for `s1`; a second
`createPinnedWindow` call for `s1` returns the existing handle and changes
no counts. -/
def pinnedSampleEntry : PinEntry :=
  { siteId := "s1"
    windowHandle := 0
    viewHandle := 1
    title := "Site One"
    alwaysOnTop := false
    url := "https://one.example"
    userAgent := USER_AGENTS UserAgentMode.desktop
    focused := false }

/-- A concrete state with one open pinned window for site id `s1`. -/
def pinnedSampleState : AppState :=
  { initialAppState with pinnedWindows := [("s1", pinnedSampleEntry)] }

/-- A site record with id `s1` but different name/URL from the record used
when the window was created. -/
def sampleSiteAlt : Site :=
  { id := "s1"
    name := "Other"
    url := "https://two.example"
    alwaysOnTop := some true
    createdAt := 5
    updatedAt := 6 }

theorem createPinnedWindow_unique_witness :
    (pinnedSampleState.pinnedWindows.map Prod.fst).Nodup ∧
    (((createPinnedWindow sampleSiteAlt UserAgentMode.mobile
          pinnedSampleState).1.pinnedWindows.map Prod.fst).Nodup ∧
      ((createPinnedWindow sampleSiteAlt UserAgentMode.mobile
          pinnedSampleState).1.pinnedWindows.map Prod.fst).count sampleSiteAlt.id ≤ 1 ∧
      (∀ e, lookupKey sampleSiteAlt.id pinnedSampleState.pinnedWindows = some e →
        (createPinnedWindow sampleSiteAlt UserAgentMode.mobile pinnedSampleState).2 =
            e.windowHandle ∧
        (createPinnedWindow sampleSiteAlt UserAgentMode.mobile
            pinnedSampleState).1.pinnedWindows.length =
          pinnedSampleState.pinnedWindows.length ∧
        (createPinnedWindow sampleSiteAlt UserAgentMode.mobile
            pinnedSampleState).1.pinnedTrays = pinnedSampleState.pinnedTrays)) :=
  ⟨by decide,
   createPinnedWindow_unique sampleSiteAlt UserAgentMode.mobile pinnedSampleState (by decide)⟩

/-! ## C10: a second `createPinnedWindow` call ignores its arguments -/

/-- C10: when a pinned window for `site.id` already exists,
`createPinnedWindow` only focuses it: the returned handle is the existing
window's, the entry keeps its loaded URL, user-agent string, always-on-top
state, surface (view handle) and title (only `focused` flips to `true`), the
tray map is untouched, and entries for every other id are untouched — even
though the passed `site` record and `userAgentMode` may differ from those
used at creation. -/
theorem createPinnedWindow_existing_ignores_args (site : Site) (ua : UserAgentMode)
    (st : AppState) (e : PinEntry)
    (h : lookupKey site.id st.pinnedWindows = some e) :
    (createPinnedWindow site ua st).2 = e.windowHandle ∧
    lookupKey site.id (createPinnedWindow site ua st).1.pinnedWindows =
      some ({ e with focused := true }) ∧
    (∀ e2, lookupKey site.id (createPinnedWindow site ua st).1.pinnedWindows = some e2 →
      e2.url = e.url ∧ e2.userAgent = e.userAgent ∧ e2.alwaysOnTop = e.alwaysOnTop ∧
      e2.viewHandle = e.viewHandle ∧ e2.title = e.title) ∧
    (createPinnedWindow site ua st).1.pinnedTrays = st.pinnedTrays ∧
    (∀ k, k ≠ site.id →
      lookupKey k (createPinnedWindow site ua st).1.pinnedWindows =
        lookupKey k st.pinnedWindows) := by
  have hlook : lookupKey site.id (createPinnedWindow site ua st).1.pinnedWindows =
      some ({ e with focused := true }) := by
    simp only [createPinnedWindow, h]
    exact lookupKey_setKey_self site.id _ st.pinnedWindows
  refine ⟨by simp [createPinnedWindow, h], hlook, ?_, by simp [createPinnedWindow, h], ?_⟩
  · intro e2 he2
    rw [hlook] at he2
    cases he2
    exact ⟨rfl, rfl, rfl, rfl, rfl⟩
  · intro k hk
    simp only [createPinnedWindow, h]
    exact lookupKey_setKey_ne _ st.pinnedWindows hk

theorem createPinnedWindow_existing_ignores_args_witness :
    lookupKey sampleSiteAlt.id pinnedSampleState.pinnedWindows = some pinnedSampleEntry ∧
    ((createPinnedWindow sampleSiteAlt UserAgentMode.mobile pinnedSampleState).2 =
        pinnedSampleEntry.windowHandle ∧
      lookupKey sampleSiteAlt.id
          (createPinnedWindow sampleSiteAlt UserAgentMode.mobile
            pinnedSampleState).1.pinnedWindows =
        some ({ pinnedSampleEntry with focused := true }) ∧
      (∀ e2, lookupKey sampleSiteAlt.id
            (createPinnedWindow sampleSiteAlt UserAgentMode.mobile
              pinnedSampleState).1.pinnedWindows = some e2 →
        e2.url = pinnedSampleEntry.url ∧ e2.userAgent = pinnedSampleEntry.userAgent ∧
        e2.alwaysOnTop = pinnedSampleEntry.alwaysOnTop ∧
        e2.viewHandle = pinnedSampleEntry.viewHandle ∧
        e2.title = pinnedSampleEntry.title) ∧
      (createPinnedWindow sampleSiteAlt UserAgentMode.mobile
          pinnedSampleState).1.pinnedTrays = pinnedSampleState.pinnedTrays ∧
      (∀ k, k ≠ sampleSiteAlt.id →
        lookupKey k (createPinnedWindow sampleSiteAlt UserAgentMode.mobile
            pinnedSampleState).1.pinnedWindows =
          lookupKey k pinnedSampleState.pinnedWindows)) :=
  ⟨by decide,
   createPinnedWindow_existing_ignores_args sampleSiteAlt UserAgentMode.mobile
     pinnedSampleState pinnedSampleEntry (by decide)⟩

/-! ## Lemmas about ad-block toggling -/

theorem foldl_toggle_filter (e : Bool) (l : List String) (st : AppState) (p : String)
    (h : p ∈ l ∨ st.sessionFilter p = e) :
    (l.foldl
      (fun acc q =>
        if e then setupAdBlockForSession q acc else removeAdBlockFromSession q acc)
      st).sessionFilter p = e := by
  induction l generalizing st with
  | nil =>
      rcases h with hmem | he
      · cases hmem
      · exact he
  | cons q rest ih =>
      rw [List.foldl_cons]
      apply ih
      rcases h with hmem | he
      · rcases List.mem_cons.mp hmem with hq | hmem2
        · right
          subst hq
          cases e <;> simp [setupAdBlockForSession, removeAdBlockFromSession]
        · left
          exact hmem2
      · right
        by_cases hpq : p = q <;> cases e <;>
          simp [setupAdBlockForSession, removeAdBlockFromSession, hpq, he]

theorem setAdBlockEnabled_filter_of_mem (e : Bool) (st : AppState) (p : String)
    (hp : p ∈ st.activeSessions) :
    (setAdBlockEnabled e st).sessionFilter p = e := by
  unfold setAdBlockEnabled
  exact foldl_toggle_filter e st.activeSessions _ p (Or.inl hp)

theorem setAdBlockEnabled_activeSessions (e : Bool) (st : AppState) :
    (setAdBlockEnabled e st).activeSessions = st.activeSessions := by
  unfold setAdBlockEnabled
  have hgen : ∀ (l : List String) (st2 : AppState),
      (l.foldl (fun acc p =>
        if e then setupAdBlockForSession p acc else removeAdBlockFromSession p acc)
        st2).activeSessions = st2.activeSessions := by
    intro l
    induction l with
    | nil => intro st2; rfl
    | cons q rest ih =>
        intro st2
        rw [List.foldl_cons, ih]
        cases e <;> simp [setupAdBlockForSession, removeAdBlockFromSession]
  exact hgen _ _

theorem getSessionForSite_activeSessions_mono (id : String) (st : AppState) (p : String)
    (hp : p ∈ st.activeSessions) :
    p ∈ ((getSessionForSite id st).1).activeSessions := by
  unfold getSessionForSite
  by_cases hm : partitionName id ∈ st.activeSessions <;>
    by_cases hab : st.adBlockEnabled <;>
      simp [hm, hab, setupAdBlockForSession, hp]

theorem getSessionForSite_mem_self (id : String) (st : AppState) :
    partitionName id ∈ ((getSessionForSite id st).1).activeSessions := by
  unfold getSessionForSite
  by_cases hm : partitionName id ∈ st.activeSessions <;>
    by_cases hab : st.adBlockEnabled <;>
      simp [hm, hab, setupAdBlockForSession]

theorem runSessionOps_activeSessions_mono (ops : List SessionOp) (st : AppState)
    (p : String) (hp : p ∈ st.activeSessions) :
    p ∈ (runSessionOps ops st).activeSessions := by
  induction ops generalizing st with
  | nil => exact hp
  | cons op rest ih =>
      cases op with
      | getSession id =>
          exact ih _ (getSessionForSite_activeSessions_mono id st p hp)
      | setAdBlock e =>
          apply ih
          rw [setAdBlockEnabled_activeSessions]
          exact hp

theorem mem_activeSessions_of_getSession (ops : List SessionOp) (st : AppState)
    (id : String) (h : SessionOp.getSession id ∈ ops) :
    partitionName id ∈ (runSessionOps ops st).activeSessions := by
  induction ops generalizing st with
  | nil => cases h
  | cons op rest ih =>
      rcases List.mem_cons.mp h with hop | hmem
      · cases hop
        exact runSessionOps_activeSessions_mono rest _ _ (getSessionForSite_mem_self id st)
      · cases op with
        | getSession id2 => exact ih _ hmem
        | setAdBlock e => exact ih _ hmem

/-! ## C8: ad-block toggling is retroactive -/

/-- C8: after any sequence of `SessionManager` calls in which the partition
for site `id` was handed out, enabling ad-block cancels every request whose
URL contains (case-insensitively) one of the `AD_BLOCK_DOMAINS` substrings
in that partition — even though the partition was created before the toggle
— and disabling ad-block allows the same request again. -/
theorem adBlock_toggle_retroactive (ops : List SessionOp) (st : AppState)
    (id url : String)
    (hhanded : SessionOp.getSession id ∈ ops)
    (had : ∃ d ∈ AD_BLOCK_DOMAINS, strIncludes (lowerStr url) (lowerStr d) = true) :
    onBeforeRequest (setAdBlockEnabled true (runSessionOps ops st))
      (partitionName id) url = RequestDecision.cancelled ∧
    onBeforeRequest (setAdBlockEnabled false (runSessionOps ops st))
      (partitionName id) url = RequestDecision.allowed := by
  have hmem := mem_activeSessions_of_getSession ops st id hhanded
  have hisad : isAdUrl url = true := by
    rcases had with ⟨d, hd, hinc⟩
    exact List.any_eq_true.mpr ⟨d, hd, hinc⟩
  constructor
  · rw [onBeforeRequest, setAdBlockEnabled_filter_of_mem true _ _ hmem]
    simp [hisad]
  · rw [onBeforeRequest, setAdBlockEnabled_filter_of_mem false _ _ hmem]
    simp

/-- C8 witness: the partition of site `cafe` is handed out first; a request
to a `doubleclick.net` URL in that partition is cancelled after enabling
ad-block and allowed after disabling it. -/
theorem adBlock_toggle_retroactive_witness :
    SessionOp.getSession ("cafe") ∈ [SessionOp.getSession ("cafe")] ∧
    (∃ d ∈ AD_BLOCK_DOMAINS,
      strIncludes (lowerStr ("https://ads.doubleclick.net/pixel"))
        (lowerStr d) = true) ∧
    (onBeforeRequest
        (setAdBlockEnabled true
          (runSessionOps [SessionOp.getSession ("cafe")] initialAppState))
        (partitionName ("cafe")) ("https://ads.doubleclick.net/pixel") =
      RequestDecision.cancelled ∧
    onBeforeRequest
        (setAdBlockEnabled false
          (runSessionOps [SessionOp.getSession ("cafe")] initialAppState))
        (partitionName ("cafe")) ("https://ads.doubleclick.net/pixel") =
      RequestDecision.allowed) :=
  ⟨by decide, by decide,
   adBlock_toggle_retroactive [SessionOp.getSession ("cafe")] initialAppState
     ("cafe") ("https://ads.doubleclick.net/pixel") (by decide) (by decide)⟩

/-! ## Lemmas for the popover surface lifecycle -/

theorem liveFrom_append (l : List Nat) (a b : List SurfaceEvent) :
    liveFrom l (a ++ b) = liveFrom (liveFrom l a) b :=
  List.foldl_append _ l a b

theorem liveOf_of_some {st : AppState} {v : Nat} (h : st.currentBrowserView = some v) :
    liveOf st = [v] := by
  simp [liveOf, h]

theorem liveSurfaces_eq_liveFrom (st : AppState) (h : st.currentBrowserView = none)
    (e : List SurfaceEvent) : liveSurfaces e = liveFrom (liveOf st) e := by
  unfold liveSurfaces
  rw [show liveOf st = [] from by simp [liveOf, h]]

/-- One successful `switchToSite` call: the post-state has exactly the fresh
surface bound and the requested site active (also persisted in settings); the
emitted events are the destruction of the previous surface (when there was
one) followed by the creation of the fresh one; at most one surface is live
at every intermediate point. -/
theorem switchToSite_step (i : String) (st : AppState)
    (hw : st.window = true) (hfound : (getById st.sites i).isSome = true) :
    (switchToSite i st).1.window = true ∧
    (switchToSite i st).1.sites = st.sites ∧
    (switchToSite i st).1.currentBrowserView = some st.nextSurfaceId ∧
    (switchToSite i st).1.currentSiteId = some i ∧
    (switchToSite i st).1.settings.activeSiteId = some i ∧
    liveFrom (liveOf st) (switchToSite i st).2 = [st.nextSurfaceId] ∧
    (∃ p, (switchToSite i st).2 = p ++ [SurfaceEvent.created st.nextSurfaceId i]) ∧
    (∀ p q, (switchToSite i st).2 = p ++ q → (liveFrom (liveOf st) p).length ≤ 1) := by
  rcases Option.isSome_iff_exists.mp hfound with ⟨site, hsite⟩
  cases hcb : st.currentBrowserView with
  | none =>
      have hev : (switchToSite i st).2 = [SurfaceEvent.created st.nextSurfaceId i] := by
        simp [switchToSite, hw, hsite, destroyCurrentBrowserView, hcb, createBrowserView,
          getSessionForSite_nextSurfaceId]
      refine ⟨?_, ?_, ?_, ?_, ?_, ?_, ⟨[], hev⟩, ?_⟩
      · simp [switchToSite, hw, hsite, destroyCurrentBrowserView, hcb, createBrowserView,
          getSessionForSite_window]
      · simp [switchToSite, hw, hsite, destroyCurrentBrowserView, hcb, createBrowserView,
          getSessionForSite_sites]
      · simp [switchToSite, hw, hsite, destroyCurrentBrowserView, hcb, createBrowserView,
          getSessionForSite_nextSurfaceId]
      · simp [switchToSite, hw, hsite, destroyCurrentBrowserView, hcb, createBrowserView]
      · simp [switchToSite, hw, hsite, destroyCurrentBrowserView, hcb, createBrowserView,
          getSessionForSite_settings]
      · rw [hev]
        simp [liveOf, hcb, liveFrom]
      · intro p q hpq
        rw [hev] at hpq
        cases p with
        | nil => simp [liveFrom, liveOf, hcb]
        | cons e1 p2 =>
            rcases List.cons.injEq .. ▸ hpq with ⟨he1, hrest⟩
            have hp2 : p2 = [] := by
              cases p2 with
              | nil => rfl
              | cons e2 p3 => simp at hrest
            subst he1
            subst hp2
            simp [liveFrom, liveOf, hcb]
  | some v0 =>
      have hev : (switchToSite i st).2 =
          [SurfaceEvent.destroyed v0, SurfaceEvent.created st.nextSurfaceId i] := by
        simp [switchToSite, hw, hsite, destroyCurrentBrowserView, hcb, createBrowserView,
          getSessionForSite_nextSurfaceId]
      refine ⟨?_, ?_, ?_, ?_, ?_, ?_,
        ⟨[SurfaceEvent.destroyed v0], hev⟩, ?_⟩
      · simp [switchToSite, hw, hsite, destroyCurrentBrowserView, hcb, createBrowserView,
          getSessionForSite_window]
      · simp [switchToSite, hw, hsite, destroyCurrentBrowserView, hcb, createBrowserView,
          getSessionForSite_sites]
      · simp [switchToSite, hw, hsite, destroyCurrentBrowserView, hcb, createBrowserView,
          getSessionForSite_nextSurfaceId]
      · simp [switchToSite, hw, hsite, destroyCurrentBrowserView, hcb, createBrowserView]
      · simp [switchToSite, hw, hsite, destroyCurrentBrowserView, hcb, createBrowserView,
          getSessionForSite_settings]
      · rw [hev]
        simp [liveOf, hcb, liveFrom]
      · intro p q hpq
        rw [hev] at hpq
        cases p with
        | nil => simp [liveFrom, liveOf, hcb]
        | cons e1 p2 =>
            rcases List.cons.injEq .. ▸ hpq with ⟨he1, hrest⟩
            subst he1
            cases p2 with
            | nil => simp [liveFrom, liveOf, hcb]
            | cons e2 p3 =>
                rcases List.cons.injEq .. ▸ hrest with ⟨he2, hrest2⟩
                have hp3 : p3 = [] := by
                  cases p3 with
                  | nil => rfl
                  | cons e3 p4 => simp at hrest2
                subst he2
                subst hp3
                simp [liveFrom, liveOf, hcb]

/-- N ≥ 1 sequential successful `switchToSite` calls: exactly one surface is
live at the end (the popover's), it was created for the last call's site,
that site is recorded and persisted as active, and at most one surface is
live at every intermediate point of the whole event trace (creation never
overlaps the previous surface's lifetime). -/
theorem switchSeq_spec (ids : List String) (st : AppState)
    (hw : st.window = true)
    (hv : ∀ i ∈ ids, (getById st.sites i).isSome = true)
    (hne : ids ≠ []) :
    (switchSeq ids st).1.window = true ∧
    (switchSeq ids st).1.sites = st.sites ∧
    (∃ v, (switchSeq ids st).1.currentBrowserView = some v ∧
      liveFrom (liveOf st) (switchSeq ids st).2 = [v] ∧
      (∃ p, (switchSeq ids st).2 = p ++ [SurfaceEvent.created v (ids.getLast hne)])) ∧
    (switchSeq ids st).1.currentSiteId = some (ids.getLast hne) ∧
    (switchSeq ids st).1.settings.activeSiteId = some (ids.getLast hne) ∧
    (∀ p q, (switchSeq ids st).2 = p ++ q → (liveFrom (liveOf st) p).length ≤ 1) := by
  induction ids generalizing st with
  | nil => exact absurd rfl hne
  | cons i rest ih =>
      have hstep := switchToSite_step i st hw (hv i (List.mem_cons_self i rest))
      obtain ⟨hw1, hsites1, hcb1, hsid1, hset1, hlive1, hends1, hpre1⟩ := hstep
      by_cases hrest : rest = []
      · subst hrest
        have hseq : switchSeq [i] st = ((switchToSite i st).1, (switchToSite i st).2) := by
          simp [switchSeq]
        refine ⟨?_, ?_, ⟨st.nextSurfaceId, ?_, ?_, ?_⟩, ?_, ?_, ?_⟩ <;>
          rw [hseq] <;> simp only [List.getLast]
        · exact hw1
        · exact hsites1
        · exact hcb1
        · exact hlive1
        · exact hends1
        · exact hsid1
        · exact hset1
        · exact hpre1
      · have hv2 : ∀ j ∈ rest, (getById ((switchToSite i st).1).sites j).isSome = true := by
          intro j hj
          rw [hsites1]
          exact hv j (List.mem_cons_of_mem i hj)
        have hih := ih ((switchToSite i st).1) hw1 hv2 hrest
        obtain ⟨hwf, hsitesf, ⟨vf, hcbf, hlivef, pf, hendsf⟩, hsidf, hsetf, hpref⟩ := hih
        have hseq : switchSeq (i :: rest) st =
            ((switchSeq rest (switchToSite i st).1).1,
             (switchToSite i st).2 ++ (switchSeq rest (switchToSite i st).1).2) := by
          simp [switchSeq]
        have hlast : (i :: rest).getLast hne = rest.getLast hrest :=
          List.getLast_cons hrest
        have hliveOf1 : liveOf ((switchToSite i st).1) = [st.nextSurfaceId] :=
          liveOf_of_some hcb1
        refine ⟨?_, ?_, ⟨vf, ?_, ?_, ?_⟩, ?_, ?_, ?_⟩ <;> rw [hseq]
        · exact hwf
        · rw [hsitesf, hsites1]
        · exact hcbf
        · rw [liveFrom_append, hlive1, ← hliveOf1, hlivef]
        · refine ⟨(switchToSite i st).2 ++ pf, ?_⟩
          rw [hlast, hendsf, List.append_assoc]
        · rw [hlast]
          exact hsidf
        · rw [hlast]
          exact hsetf
        · intro p q hpq
          rcases List.append_eq_append_iff.mp hpq.symm with ⟨a2, hp, he2⟩ | ⟨c2, he1, hq⟩
          · exact hpre1 p a2 hp
          · rw [he1, liveFrom_append, hlive1, ← hliveOf1]
            exact hpref c2 q hq

/-! ## C1: popover surface exclusivity -/

/-- C1: starting from a popover state with a window and no surface yet, after
N ≥ 1 sequential `switchToSite` calls to registered sites, exactly one
surface is live in the popover, it is the one created for the Nth call's
site, that site is the recorded active site — and over the whole trace of
surface events at most one surface is ever live at a time: destruction of
the previous surface strictly precedes creation of the next (no overlap
window). -/
theorem switchToSite_exclusivity (ids : List String) (st : AppState)
    (hw : st.window = true)
    (hv : ∀ i ∈ ids, (getById st.sites i).isSome = true)
    (hne : ids ≠ [])
    (h0 : st.currentBrowserView = none) :
    (∃ v, (switchSeq ids st).1.currentBrowserView = some v ∧
      liveSurfaces (switchSeq ids st).2 = [v] ∧
      (∃ p, (switchSeq ids st).2 = p ++ [SurfaceEvent.created v (ids.getLast hne)])) ∧
    (switchSeq ids st).1.currentSiteId = some (ids.getLast hne) ∧
    (∀ p q, (switchSeq ids st).2 = p ++ q → (liveSurfaces p).length ≤ 1) := by
  have hbase := switchSeq_spec ids st hw hv hne
  obtain ⟨_, _, ⟨v, hcb, hlive, hends⟩, hsid, _, hpre⟩ := hbase
  refine ⟨⟨v, hcb, ?_, hends⟩, hsid, ?_⟩
  · rw [liveSurfaces_eq_liveFrom st h0]
    exact hlive
  · intro p q hpq
    rw [liveSurfaces_eq_liveFrom st h0]
    exact hpre p q hpq

/-- Two concrete registered sites for exercising `switchToSite`. -/
def sampleSiteA : Site :=
  { id := "idA", name := "A", url := "https://a.example", createdAt := 1, updatedAt := 1 }

/-- Second concrete registered site. -/
def sampleSiteB : Site :=
  { id := "idB", name := "B", url := "https://b.example", createdAt := 2, updatedAt := 2 }

/-- A concrete popover state with two registered sites and no live surface. -/
def twoSiteState : AppState :=
  { initialAppState with sites := [sampleSiteA, sampleSiteB] }

/-- C1 witness: two sequential switches (`idA` then `idB`) from a fresh
two-site state. -/
theorem switchToSite_exclusivity_witness :
    twoSiteState.window = true ∧
    (∀ i ∈ ["idA", "idB"], (getById twoSiteState.sites i).isSome = true) ∧
    (["idA", "idB"] : List String) ≠ [] ∧
    twoSiteState.currentBrowserView = none ∧
    ((∃ v, (switchSeq ["idA", "idB"] twoSiteState).1.currentBrowserView = some v ∧
        liveSurfaces (switchSeq ["idA", "idB"] twoSiteState).2 = [v] ∧
        (∃ p, (switchSeq ["idA", "idB"] twoSiteState).2 =
          p ++ [SurfaceEvent.created v ((["idA", "idB"] : List String).getLast (by decide))])) ∧
      (switchSeq ["idA", "idB"] twoSiteState).1.currentSiteId =
        some ((["idA", "idB"] : List String).getLast (by decide)) ∧
      (∀ p q, (switchSeq ["idA", "idB"] twoSiteState).2 = p ++ q →
        (liveSurfaces p).length ≤ 1)) :=
  ⟨by decide, by decide, by decide, by decide,
   switchToSite_exclusivity ["idA", "idB"] twoSiteState (by decide) (by decide)
     (by decide) (by decide)⟩

/-! ## Frame lemmas for the delete cascade -/

theorem closePinnedWindow_window (id : String) (st : AppState) :
    (closePinnedWindow id st).window = st.window := by
  unfold closePinnedWindow
  split <;> (dsimp only; split <;> rfl)

theorem closePinnedWindow_currentBrowserView (id : String) (st : AppState) :
    (closePinnedWindow id st).currentBrowserView = st.currentBrowserView := by
  unfold closePinnedWindow
  split <;> (dsimp only; split <;> rfl)

theorem closePinnedWindow_currentSiteId (id : String) (st : AppState) :
    (closePinnedWindow id st).currentSiteId = st.currentSiteId := by
  unfold closePinnedWindow
  split <;> (dsimp only; split <;> rfl)

theorem closePinnedWindow_sites (id : String) (st : AppState) :
    (closePinnedWindow id st).sites = st.sites := by
  unfold closePinnedWindow
  split <;> (dsimp only; split <;> rfl)

theorem closePinnedWindow_settings (id : String) (st : AppState) :
    (closePinnedWindow id st).settings = st.settings := by
  unfold closePinnedWindow
  split <;> (dsimp only; split <;> rfl)

theorem closePinnedWindow_partitionData (id : String) (st : AppState) :
    (closePinnedWindow id st).partitionData = st.partitionData := by
  unfold closePinnedWindow
  split <;> (dsimp only; split <;> rfl)

theorem closePinnedWindow_nextSurfaceId (id : String) (st : AppState) :
    (closePinnedWindow id st).nextSurfaceId = st.nextSurfaceId := by
  unfold closePinnedWindow
  split <;> (dsimp only; split <;> rfl)

theorem closePinnedWindow_lookup_windows (id : String) (st : AppState) :
    lookupKey id (closePinnedWindow id st).pinnedWindows = none := by
  unfold closePinnedWindow
  cases h1 : lookupKey id st.pinnedWindows with
  | some e =>
      simp only [h1]
      split <;> exact lookupKey_eraseKey_self id st.pinnedWindows
  | none =>
      simp only [h1]
      split <;> exact h1

theorem closePinnedWindow_lookup_trays (id : String) (st : AppState) :
    lookupKey id (closePinnedWindow id st).pinnedTrays = none := by
  unfold closePinnedWindow
  cases h1 : lookupKey id st.pinnedWindows <;> simp only [h1] <;>
    · split
      · exact lookupKey_eraseKey_self id _
      · next hnone => exact hnone

theorem switchToSite_pinnedWindows (i : String) (st : AppState) :
    (switchToSite i st).1.pinnedWindows = st.pinnedWindows := by
  by_cases hw : st.window = false
  · simp [switchToSite, hw]
  · have hwt : st.window = true := by revert hw; cases st.window <;> simp
    cases hg : getById st.sites i with
    | none => simp [switchToSite, hw, hg]
    | some site =>
        cases hcb : st.currentBrowserView with
        | none =>
            simp [switchToSite, hw, hg, destroyCurrentBrowserView, hcb,
              createBrowserView, getSessionForSite_pinnedWindows]
        | some v0 =>
            simp [switchToSite, hw, hg, destroyCurrentBrowserView, hcb, hwt,
              createBrowserView, getSessionForSite_pinnedWindows]

theorem switchToSite_pinnedTrays (i : String) (st : AppState) :
    (switchToSite i st).1.pinnedTrays = st.pinnedTrays := by
  by_cases hw : st.window = false
  · simp [switchToSite, hw]
  · have hwt : st.window = true := by revert hw; cases st.window <;> simp
    cases hg : getById st.sites i with
    | none => simp [switchToSite, hw, hg]
    | some site =>
        cases hcb : st.currentBrowserView with
        | none =>
            simp [switchToSite, hw, hg, destroyCurrentBrowserView, hcb,
              createBrowserView, getSessionForSite_pinnedTrays]
        | some v0 =>
            simp [switchToSite, hw, hg, destroyCurrentBrowserView, hcb, hwt,
              createBrowserView, getSessionForSite_pinnedTrays]

theorem switchToSite_partitionData (i : String) (st : AppState) :
    (switchToSite i st).1.partitionData = st.partitionData := by
  by_cases hw : st.window = false
  · simp [switchToSite, hw]
  · have hwt : st.window = true := by revert hw; cases st.window <;> simp
    cases hg : getById st.sites i with
    | none => simp [switchToSite, hw, hg]
    | some site =>
        cases hcb : st.currentBrowserView with
        | none =>
            simp [switchToSite, hw, hg, destroyCurrentBrowserView, hcb,
              createBrowserView, getSessionForSite_partitionData]
        | some v0 =>
            simp [switchToSite, hw, hg, destroyCurrentBrowserView, hcb, hwt,
              createBrowserView, getSessionForSite_partitionData]

theorem switchToSite_sites (i : String) (st : AppState) :
    (switchToSite i st).1.sites = st.sites := by
  by_cases hw : st.window = false
  · simp [switchToSite, hw]
  · have hwt : st.window = true := by revert hw; cases st.window <;> simp
    cases hg : getById st.sites i with
    | none => simp [switchToSite, hw, hg]
    | some site =>
        cases hcb : st.currentBrowserView with
        | none =>
            simp [switchToSite, hw, hg, destroyCurrentBrowserView, hcb,
              createBrowserView, getSessionForSite_sites]
        | some v0 =>
            simp [switchToSite, hw, hg, destroyCurrentBrowserView, hcb, hwt,
              createBrowserView, getSessionForSite_sites]

theorem getById_cons_self (s0 : Site) (rest : List Site) :
    getById (s0 :: rest) s0.id = some s0 := by
  simp [getById, List.find?]

theorem siteStoreDelete_found (id : String) (st : AppState)
    (h : ∃ s ∈ st.sites, s.id = id) :
    siteStoreDelete id st =
      ({ st with sites := st.sites.filter (fun s => s.id ≠ id) }, true) := by
  rcases h with ⟨s, hs, hsid⟩
  have hlt : (st.sites.filter (fun s => s.id ≠ id)).length < st.sites.length := by
    apply List.length_filter_lt_length_iff_exists.mpr
    exact ⟨s, hs, by simp [hsid]⟩
  rw [siteStoreDelete, if_neg (Nat.ne_of_lt hlt)]

/-- The application state right after the close/clear/delete/destroy stages
of the `site:delete` handler for an active site. -/
def deleteMidState (id : String) (st : AppState) : AppState :=
  { clearSiteData id (closePinnedWindow id st) with
    sites := st.sites.filter (fun s => s.id ≠ id)
    currentBrowserView := none
    currentSiteId := none }

theorem handleSiteDelete_eq (id : String) (st : AppState) (v : Nat)
    (hpin : isPinned id st = true)
    (hcur : st.currentSiteId = some id)
    (hv : st.currentBrowserView = some v)
    (hw : st.window = true)
    (hmem : ∃ s ∈ st.sites, s.id = id) :
    handleSiteDelete id st =
      (match st.sites.filter (fun s => s.id ≠ id) with
       | [] => (deleteMidState id st, true, [SurfaceEvent.destroyed v])
       | s0 :: _ =>
           ((switchToSite s0.id (deleteMidState id st)).1, true,
            [SurfaceEvent.destroyed v] ++ (switchToSite s0.id (deleteMidState id st)).2)) := by
  have hs2sites : (clearSiteData id (closePinnedWindow id st)).sites = st.sites := by
    simp [clearSiteData, closePinnedWindow_sites]
  have hsd := siteStoreDelete_found id (clearSiteData id (closePinnedWindow id st))
    (by rw [hs2sites]; exact hmem)
  rw [hs2sites] at hsd
  have h2cur : (clearSiteData id (closePinnedWindow id st)).currentSiteId = some id := by
    simp [clearSiteData, closePinnedWindow_currentSiteId, hcur]
  have h2cbv : (clearSiteData id (closePinnedWindow id st)).currentBrowserView = some v := by
    simp [clearSiteData, closePinnedWindow_currentBrowserView, hv]
  have h2w : (clearSiteData id (closePinnedWindow id st)).window = true := by
    simp [clearSiteData, closePinnedWindow_window, hw]
  have hmids : (deleteMidState id st).sites = st.sites.filter (fun s => s.id ≠ id) := rfl
  unfold handleSiteDelete
  simp only [hpin, if_true, hsd, h2cur, h2cbv, h2w, destroyCurrentBrowserView, hmids]
  simp [deleteMidState, clearSiteData, closePinnedWindow_window, hw]

/-! ## C3: delete cascade for a pinned, active site -/

/-- C3: deleting a pinned, currently-active site closes its pinned window and
destroys its tray icon, clears its partition's data, removes it from the
registry, and switches the popover's active site to the first remaining site
of the registry (recording and persisting it, with a live surface), or
leaves the popover with no surface and no active site when the registry
became empty. -/
theorem site_delete_cascade (id : String) (st : AppState)
    (hw : st.window = true)
    (hpin : isPinned id st = true)
    (hcur : st.currentSiteId = some id)
    (hcbv : st.currentBrowserView.isSome = true)
    (hmem : ∃ s ∈ st.sites, s.id = id) :
    (handleSiteDelete id st).2.1 = true ∧
    lookupKey id (handleSiteDelete id st).1.pinnedWindows = none ∧
    lookupKey id (handleSiteDelete id st).1.pinnedTrays = none ∧
    (handleSiteDelete id st).1.partitionData (partitionName id) = [] ∧
    (∀ s ∈ (handleSiteDelete id st).1.sites, s.id ≠ id) ∧
    (st.sites.filter (fun s => s.id ≠ id) = [] →
      (handleSiteDelete id st).1.currentBrowserView = none ∧
      (handleSiteDelete id st).1.currentSiteId = none) ∧
    (∀ s0 rest2, st.sites.filter (fun s => s.id ≠ id) = s0 :: rest2 →
      (handleSiteDelete id st).1.currentSiteId = some s0.id ∧
      (handleSiteDelete id st).1.settings.activeSiteId = some s0.id ∧
      (handleSiteDelete id st).1.currentBrowserView.isSome = true) := by
  rcases Option.isSome_iff_exists.mp hcbv with ⟨v, hv⟩
  have heq := handleSiteDelete_eq id st v hpin hcur hv hw hmem
  have hmidW : lookupKey id (deleteMidState id st).pinnedWindows = none := by
    have : (deleteMidState id st).pinnedWindows = (closePinnedWindow id st).pinnedWindows := by
      simp [deleteMidState, clearSiteData]
    rw [this]
    exact closePinnedWindow_lookup_windows id st
  have hmidT : lookupKey id (deleteMidState id st).pinnedTrays = none := by
    have : (deleteMidState id st).pinnedTrays = (closePinnedWindow id st).pinnedTrays := by
      simp [deleteMidState, clearSiteData]
    rw [this]
    exact closePinnedWindow_lookup_trays id st
  have hmidP : (deleteMidState id st).partitionData (partitionName id) = [] := by
    simp [deleteMidState, clearSiteData]
  have hmidSites : (deleteMidState id st).sites = st.sites.filter (fun s => s.id ≠ id) := rfl
  have hmidWd : (deleteMidState id st).window = true := by
    simp [deleteMidState, clearSiteData, closePinnedWindow_window, hw]
  have hfilterNe : ∀ s ∈ st.sites.filter (fun s => s.id ≠ id), s.id ≠ id := by
    intro s hs
    have := (List.mem_filter.mp hs).2
    exact of_decide_eq_true this
  cases hfil : st.sites.filter (fun s => s.id ≠ id) with
  | nil =>
      rw [hfil] at heq
      have hfin : handleSiteDelete id st =
          (deleteMidState id st, true, [SurfaceEvent.destroyed v]) := by
        rw [heq]
      rw [hfin]
      refine ⟨rfl, hmidW, hmidT, hmidP, ?_, ?_, ?_⟩
      · intro s hs
        rw [hmidSites, hfil] at hs
        cases hs
      · intro _
        exact ⟨rfl, rfl⟩
      · intro s0 rest2 hcontr
        exact List.noConfusion hcontr
  | cons s0 rest2 =>
      rw [hfil] at heq
      have hfin : handleSiteDelete id st =
          ((switchToSite s0.id (deleteMidState id st)).1, true,
           [SurfaceEvent.destroyed v] ++ (switchToSite s0.id (deleteMidState id st)).2) := by
        rw [heq]
      have hms2 : (deleteMidState id st).sites = s0 :: rest2 := by
        rw [hmidSites, hfil]
      have hfound : (getById (deleteMidState id st).sites s0.id).isSome = true := by
        rw [hms2, getById_cons_self]
        rfl
      have hstep := switchToSite_step s0.id (deleteMidState id st) hmidWd hfound
      obtain ⟨_, hsites1, hcb1, hsid1, hset1, _, _, _⟩ := hstep
      rw [hfin]
      refine ⟨rfl, ?_, ?_, ?_, ?_, ?_, ?_⟩
      · rw [switchToSite_pinnedWindows]
        exact hmidW
      · rw [switchToSite_pinnedTrays]
        exact hmidT
      · rw [switchToSite_partitionData]
        exact hmidP
      · intro s hs
        rw [hsites1, hmidSites] at hs
        exact hfilterNe s hs
      · intro hcontr
        exact List.noConfusion hcontr
      · intro s1 rest3 hout
        injection hout with h1 h2
        subst h1
        exact ⟨hsid1, hset1, by rw [hcb1]; rfl⟩

/-- A concrete state with two registered sites, site `s1` active in the
popover (surface handle 0) and pinned with a tray icon. -/
def deleteSampleState : AppState :=
  { window := true
    currentBrowserView := some 0
    currentSiteId := some ("s1")
    sites := [sampleSiteAlt, sampleSiteB]
    settings := DEFAULT_SETTINGS
    pinnedWindows := [("s1", pinnedSampleEntry)]
    pinnedTrays := [("s1", { tooltip := "Site One" })]
    sessionFilter := fun _ => false
    partitionData := fun _ => [("cookie", "x")]
    nextSurfaceId := 1 }

/-- C3 witness: deleting the pinned, active site `s1` from a concrete
two-site state. -/
theorem site_delete_cascade_witness :
    deleteSampleState.window = true ∧
    isPinned ("s1") deleteSampleState = true ∧
    deleteSampleState.currentSiteId = some ("s1") ∧
    deleteSampleState.currentBrowserView.isSome = true ∧
    (∃ s ∈ deleteSampleState.sites, s.id = "s1") ∧
    ((handleSiteDelete ("s1") deleteSampleState).2.1 = true ∧
      lookupKey ("s1") (handleSiteDelete ("s1") deleteSampleState).1.pinnedWindows = none ∧
      lookupKey ("s1") (handleSiteDelete ("s1") deleteSampleState).1.pinnedTrays = none ∧
      (handleSiteDelete ("s1") deleteSampleState).1.partitionData
        (partitionName ("s1")) = [] ∧
      (∀ s ∈ (handleSiteDelete ("s1") deleteSampleState).1.sites, s.id ≠ "s1") ∧
      (deleteSampleState.sites.filter (fun s => s.id ≠ "s1") = [] →
        (handleSiteDelete ("s1") deleteSampleState).1.currentBrowserView = none ∧
        (handleSiteDelete ("s1") deleteSampleState).1.currentSiteId = none) ∧
      (∀ s0 rest2, deleteSampleState.sites.filter (fun s => s.id ≠ "s1") = s0 :: rest2 →
        (handleSiteDelete ("s1") deleteSampleState).1.currentSiteId = some s0.id ∧
        (handleSiteDelete ("s1") deleteSampleState).1.settings.activeSiteId = some s0.id ∧
        (handleSiteDelete ("s1") deleteSampleState).1.currentBrowserView.isSome = true)) :=
  ⟨by decide, by decide, by decide, by decide, by decide,
   site_delete_cascade ("s1") deleteSampleState (by decide) (by decide) (by decide)
     (by decide) (by decide)⟩

end Alshahin
